import Mathlib

/-
Verification development for the MusicPad real-time audio engine
(src/src/audio/AudioEngine.ts and src/src/audio/WAVGenerator.ts).

The TypeScript source is shallowly embedded: JavaScript numbers are
idealised as real numbers, JS `Map`s over string keys become association
lists, audio nodes are identified by natural-number ids allocated from a
counter, and `setTimeout`-based cleanup is modelled by an explicit list of
pending timers fired by an `elapse` operation.  Asynchronous
`context.resume().then(retry)` chains are collapsed to the synchronous
retry (the resume is assumed to succeed; the audio-context state itself is
environment-owned and is not part of the modelled engine state).
-/

namespace MusicPad

/-! ## Note-name parsing (AudioEngine.ts `noteToFrequency`, lines 777-826)

The source first consults a hardcoded table for the twelve octave-4 note
names, then matches the regex `^([A-G]#?)(\d+)$`, looks the note letter up
in an offsets table and computes the frequency from A4 = 440 Hz. -/

/-- Digit-string to number, as JS `parseInt` behaves on an all-digit string. -/
def digitsToNat (ds : List Char) : ℕ :=
  ds.foldl (fun acc c => acc * 10 + (c.toNat - ('0').toNat)) 0

/-- First character class `[A-G]` of the note regex. -/
def isNoteLetter (c : Char) : Bool :=
  decide (('A') ≤ c) && decide (c ≤ ('G'))

/-- The regex match `^([A-G]#?)(\d+)$`: returns the captured note name
(letter plus optional sharp) and the parsed octave digits. -/
def matchNote (s : String) : Option (String × ℕ) :=
  match s.data with
  | [] => none
  | c :: rest =>
    if isNoteLetter c then
      match rest with
      | ('#') :: ds =>
        if !ds.isEmpty && ds.all Char.isDigit then
          some (String.mk [c, ('#')], digitsToNat ds)
        else none
      | ds =>
        if !ds.isEmpty && ds.all Char.isDigit then
          some (String.mk [c], digitsToNat ds)
        else none
    else none

/-- The `noteOffsets` table: semitone offsets from C. -/
def noteOffsets (name : String) : Option ℕ :=
  if name = "C" then some 0
  else if name = "C#" then some 1
  else if name = "D" then some 2
  else if name = "D#" then some 3
  else if name = "E" then some 4
  else if name = "F" then some 5
  else if name = "F#" then some 6
  else if name = "G" then some 7
  else if name = "G#" then some 8
  else if name = "A" then some 9
  else if name = "A#" then some 10
  else if name = "B" then some 11
  else none

/-- The own keys of the `simpleNoteMap` object literal with their hardcoded
octave-4 frequencies (all values are nonzero, hence truthy).  The literal
is a plain JS object, so the source's `simpleNoteMap[note]` lookup also
consults the prototype chain; that full lookup is modelled by
`noteToFrequencyJS` below, while this table covers the own keys. -/
def simpleNoteMap (note : String) : Option ℚ :=
  if note = "C4" then some (261.63 : ℚ)
  else if note = "C#4" then some (277.18 : ℚ)
  else if note = "D4" then some (293.66 : ℚ)
  else if note = "D#4" then some (311.13 : ℚ)
  else if note = "E4" then some (329.63 : ℚ)
  else if note = "F4" then some (349.23 : ℚ)
  else if note = "F#4" then some (369.99 : ℚ)
  else if note = "G4" then some (392.00 : ℚ)
  else if note = "G#4" then some (415.30 : ℚ)
  else if note = "A4" then some (440.00 : ℚ)
  else if note = "A#4" then some (466.16 : ℚ)
  else if note = "B4" then some (493.88 : ℚ)
  else none

noncomputable section

/-- `noteToFrequency` from AudioEngine.ts: simple table first, then the
regex path computing `C4_FREQ * 2^(semitonesFromC4/12)` with
`C4_FREQ = 440 * 2^(-9/12)`; any parse failure yields 440 Hz. -/
def noteToFrequency (note : String) : ℝ :=
  match simpleNoteMap note with
  | some q => (q : ℝ)
  | none =>
    match matchNote note with
    | none => 440
    | some (noteName, octave) =>
      match noteOffsets noteName with
      | none => 440
      | some semitoneOffset =>
        let A4_FREQ : ℝ := 440
        let C4_FREQ : ℝ := A4_FREQ * (2 : ℝ) ^ ((-9 : ℝ) / 12)
        let semitonesFromC4 : ℤ := ((octave : ℤ) - 4) * 12 + (semitoneOffset : ℤ)
        C4_FREQ * (2 : ℝ) ^ ((semitonesFromC4 : ℝ) / 12)

end

/-- Chromatic index of a note string: `octave * 12 + semitone offset`,
defined exactly when the string parses and the note letter is known.
(Statement-level helper for the monotonicity claim.) -/
def noteIndex (s : String) : Option ℤ :=
  match matchNote s with
  | none => none
  | some (name, octave) =>
    match noteOffsets name with
    | none => none
    | some k => some ((octave : ℤ) * 12 + (k : ℤ))

/-- Ideal equal-temperament frequency at chromatic index `i` (A4 is index
57): `440 * 2^((i - 57)/12)`.  The regex path of `noteToFrequency` computes
exactly this. -/
noncomputable def noteFreqFormula (i : ℤ) : ℝ :=
  440 * (2 : ℝ) ^ ((((i : ℝ)) - 57) / 12)

/-- The string-keyed members every plain JS object inherits from
`Object.prototype`; each is a function (or, for `__proto__`, an object),
hence truthy under the source's `if (simpleNoteMap[note])` test. -/
def objectPrototypeKeys : List String :=
  ["constructor", "hasOwnProperty", "isPrototypeOf", "propertyIsEnumerable",
   "toLocaleString", "toString", "valueOf", "__proto__",
   "__defineGetter__", "__defineSetter__", "__lookupGetter__",
   "__lookupSetter__"]

/-- The JS value `noteToFrequency` actually returns: a number, or — when
the object-literal lookup hits an inherited `Object.prototype` member —
that member itself (a non-numeric object). -/
inductive JSValue
  | num (x : ℝ)
  | protoMember (name : String)

/-- The source's `noteToFrequency` with the object-literal lookup modelled
at full JS fidelity: an own key of `simpleNoteMap` yields its (truthy)
number; otherwise the lookup walks the prototype chain, so one of the
`Object.prototype` member names yields that inherited truthy member, which
the `if (simpleNoteMap[note])` branch returns as-is; only then does the
regex path (as in `noteToFrequency`) run. -/
noncomputable def noteToFrequencyJS (note : String) : JSValue :=
  match simpleNoteMap note with
  | some q => .num (q : ℝ)
  | none =>
    if note ∈ objectPrototypeKeys then .protoMember note
    else .num (noteToFrequency note)

/-! ## Engine data model (AudioEngine.ts)

JS `Map`s keyed by strings are association lists; `Map.set` is modelled as
erase-then-prepend, which has the same lookup semantics.  Audio nodes are
identified by ids from the engine's allocation counter; `setTimeout`
cleanup closures become `Timer` entries fired by `elapse`. -/

/-- The `AudioLayer` interface. -/
structure AudioLayer where
  id : String
  name : String
  volume : ℝ
  muted : Bool
  solo : Bool
  effects : List String

/-- Association-list lookup, as JS `Map.get` (`none` for a missing key). -/
def alookup {α : Type} (k : String) : List (String × α) → Option α
  | [] => none
  | (k', v) :: t => if k = k' then some v else alookup k t

/-- Remove all entries with key `k` (JS `Map` never holds duplicates). -/
def aerase {α : Type} (k : String) : List (String × α) → List (String × α)
  | [] => []
  | (k', v) :: t => if k' = k then aerase k t else (k', v) :: aerase k t

/-- JS `Map.set`: afterwards exactly one entry for `k`, holding `v`. -/
def aset {α : Type} (k : String) (v : α) (l : List (String × α)) :
    List (String × α) :=
  (k, v) :: aerase k l

/-- Number of entries stored under key `k`. -/
def countKey {α : Type} (k : String) (l : List (String × α)) : ℕ :=
  (l.filter (fun p => p.1 == k)).length

/-- Oscillator waveforms used by the engine. -/
inductive OscShape
  | sine
  | triangle
  | sawtooth
  | square
deriving DecidableEq

/-- A chain's source node: a `Tone.Oscillator` at a frequency, or a
`Tone.Noise` (white). -/
inductive SourceKind
  | osc (frequency : ℝ) (shape : OscShape)
  | noise

/-- Amplitude-envelope phase of a sustained chain: `triggerAttack` puts it
in `attacking`, `triggerRelease` in `releasing`. -/
inductive EnvPhase
  | attacking
  | releasing
deriving DecidableEq

/-- One entry of the `sustainedNotes` registry (AudioEngine.ts lines
576-584): the live nodes (by id), their current parameter values, the
owning layer and the base volume/frequency captured at start. -/
structure SustainedNote where
  sourceId : ℕ
  envId : ℕ
  gainId : ℕ
  filterId : ℕ
  source : SourceKind
  envelope : EnvPhase
  gainValue : ℝ
  filterFreq : ℝ
  layerId : String
  baseVolume : ℝ
  baseFrequency : Option ℝ

/-- What kind of one-shot chain was constructed. -/
inductive ChainKind
  | samplePlayer (sampleId : String)
  | syntheticDrum (drumType : String)
  | syntheticNote (note : String)
  | advancedSynth (instrumentType : String)
deriving DecidableEq

/-- A transient one-shot chain: its allocated node ids, what built it, its
source and final gain, and whether its gain node was connected into the
master bus. -/
structure OneShotChain where
  nodeIds : List ℕ
  kind : ChainKind
  source : SourceKind
  gainValue : ℝ
  connectedToMaster : Bool

/-- A pending `setTimeout` cleanup callback. -/
inductive TimerAction
  | disposeSustained (noteId : String) (nodeIds : List ℕ)
  | disposeOneShot (nodeIds : List ℕ)
deriving DecidableEq

/-- A scheduled timer: absolute due time in milliseconds and its action. -/
structure Timer where
  due : ℕ
  action : TimerAction
deriving DecidableEq

/-- The engine's mutable state: layer map, sustained-note registry, loaded
sample pool (`bufferPool` keys with a successfully loaded buffer), the log
of constructed one-shot chains, pending timers, disposed node ids and the
node-id allocation counter. -/
structure EngineState where
  layers : List (String × AudioLayer)
  sustainedNotes : List (String × SustainedNote)
  bufferPool : List String
  createdChains : List OneShotChain
  timers : List Timer
  disposedNodes : List ℕ
  nextNodeId : ℕ
  globalInstrumentVolume : ℝ

/-- Does the second char list start with the first one? -/
def startsWithChars : List Char → List Char → Bool
  | [], _ => true
  | _ :: _, [] => false
  | p :: ps, c :: cs => p == c && startsWithChars ps cs

/-- JS `String.prototype.includes` on char lists. -/
def hasSubChars (pat : List Char) : List Char → Bool
  | [] => pat.isEmpty
  | c :: t => startsWithChars pat (c :: t) || hasSubChars pat t

/-- JS `drumType.includes(pat)`. -/
def strIncludes (s pat : String) : Bool :=
  hasSubChars pat.data s.data

noncomputable section

/-- `createDrumSound` (lines 358-382): synthetic drum source selection. -/
def createDrumSound (typ : String) : SourceKind :=
  if typ = "kick" then .osc 60 .sine
  else if typ = "snare" then .noise
  else if typ = "hihat" then .noise
  else if typ = "openhat" then .noise
  else if typ = "crash" then .noise
  else if typ = "ride" then .osc 800 .triangle
  else if typ = "tom1" then .osc 120 .sine
  else if typ = "tom2" then .osc 80 .sine
  else .osc 440 .sine

/-- `playSyntheticDrum` (lines 517-573): source → envelope → gain →
master, a highpass filter spliced in for hats and snare, cleanup timer
after 1000 ms.  The cleanup (lines 563-568) disposes only the source,
envelope and gain nodes — the spliced filter is never disposed. -/
def playSyntheticDrum (s : EngineState) (drumType : String) (volume : ℝ)
    (now : ℕ) : EngineState :=
  let source := createDrumSound drumType
  let sourceId := s.nextNodeId
  let envId := s.nextNodeId + 1
  let gainId := s.nextNodeId + 2
  let gainValue : ℝ := min (volume * 0.5) 0.8
  let withFilter : Bool := strIncludes drumType "hat" || drumType = "snare"
  let nodeIds := if withFilter then [sourceId, envId, gainId, s.nextNodeId + 3]
                 else [sourceId, envId, gainId]
  { s with
    createdChains := s.createdChains ++
      [⟨nodeIds, .syntheticDrum drumType, source, gainValue, true⟩],
    nextNodeId := s.nextNodeId + (if withFilter then 4 else 3),
    timers := s.timers ++ [⟨now + 1000, .disposeOneShot [sourceId, envId, gainId]⟩] }

/-- `playSampleInternal` (lines 456-515).  After the layer/mute check and
the (unused) buffer lookup, the source's `TEMPORARY` debugging branch
unconditionally calls `playSyntheticDrum(sampleId, velocity*layer.volume)`
and returns; the sample-player path and its synthetic fallback below that
`return` are dead code and are therefore not reachable here. -/
def playSampleInternal (s : EngineState) (sampleId layerId : String)
    (velocity : ℝ) (now : ℕ) : EngineState :=
  match alookup layerId s.layers with
  | none => s
  | some layer =>
    if layer.muted then s
    else playSyntheticDrum s sampleId (velocity * layer.volume) now

/-- `playSample` (lines 408-454): layer/mute check first, then the
context-state branches (suspended → resume-then-retry, collapsed here to
the synchronous retry), then `playSampleInternal`. -/
def playSample (s : EngineState) (sampleId layerId : String) (velocity : ℝ)
    (now : ℕ) : EngineState :=
  match alookup layerId s.layers with
  | none => s
  | some layer =>
    if layer.muted then s
    else playSampleInternal s sampleId layerId velocity now

/-- `playSyntheticNote` (lines 587-615): sine oscillator at the note's
frequency → envelope → gain (`velocity * layer.volume * 0.3`) → master,
cleanup timer after 2000 ms. -/
def playSyntheticNote (s : EngineState) (note layerId : String)
    (velocity : ℝ) (now : ℕ) : EngineState :=
  match alookup layerId s.layers with
  | none => s
  | some layer =>
    if layer.muted then s
    else
      let frequency := noteToFrequency note
      let oscId := s.nextNodeId
      let envId := s.nextNodeId + 1
      let gainId := s.nextNodeId + 2
      { s with
        createdChains := s.createdChains ++
          [⟨[oscId, envId, gainId], .syntheticNote note,
            .osc frequency .sine, velocity * layer.volume * 0.3, true⟩],
        nextNodeId := s.nextNodeId + 3,
        timers := s.timers ++ [⟨now + 2000, .disposeOneShot [oscId, envId, gainId]⟩] }

/-- `startSustainedNote` (lines 617-665): empty id if the layer is unknown
or muted; otherwise builds oscillator → filter → envelope → gain → master,
triggers the attack only, registers the chain under
`layerId-note-Date.now()` and returns that id.  No disposal is scheduled. -/
def startSustainedNote (s : EngineState) (note layerId : String)
    (initialVelocity : ℝ) (now : ℕ) : String × EngineState :=
  match alookup layerId s.layers with
  | none => ("", s)
  | some layer =>
    if layer.muted then ("", s)
    else
      let noteId := layerId ++ "-" ++ note ++ "-" ++ toString now
      let frequency := noteToFrequency note
      let oscId := s.nextNodeId
      let envId := s.nextNodeId + 1
      let gainId := s.nextNodeId + 2
      let filterId := s.nextNodeId + 3
      let entry : SustainedNote :=
        { sourceId := oscId, envId := envId, gainId := gainId,
          filterId := filterId,
          source := .osc frequency .sine,
          envelope := .attacking,
          gainValue := initialVelocity * layer.volume * 0.4,
          filterFreq := 2000 + initialVelocity * 2000,
          layerId := layerId,
          baseVolume := layer.volume * 0.4,
          baseFrequency := some frequency }
      (noteId,
        { s with
          sustainedNotes := aset noteId entry s.sustainedNotes,
          nextNodeId := s.nextNodeId + 4 })

/-- `modulateSustainedNote` (lines 668-690): unknown id or unknown owning
layer → silent no-op; otherwise overwrite, on the existing nodes, the gain
(`max(0.1, min(1.0, pressure)) * baseVolume * layer.volume`), the filter
cutoff (`200 + pressure * 3800`) and — for oscillator sources with a
(truthy, hence present and nonzero) base frequency — the oscillator
frequency (`baseFrequency * (1 + (pressure - 0.5) * 0.02)`). -/
def modulateSustainedNote (s : EngineState) (noteId : String) (pressure : ℝ) :
    EngineState :=
  match alookup noteId s.sustainedNotes with
  | none => s
  | some note =>
    match alookup note.layerId s.layers with
    | none => s
    | some layer =>
      let dynamicVolume := max 0.1 (min 1.0 pressure) * note.baseVolume * layer.volume
      let filterFreq := 200 + pressure * 3800
      let source' : SourceKind :=
        match note.source, note.baseFrequency with
        | .osc _ shape, some baseFrequency =>
          .osc (baseFrequency * (1 + (pressure - 0.5) * 0.02)) shape
        | src, _ => src
      { s with
        sustainedNotes := aset noteId
          { note with gainValue := dynamicVolume, filterFreq := filterFreq,
                      source := source' } s.sustainedNotes }

/-- `stopSustainedNote` (lines 693-711): unknown id → silent no-op;
otherwise trigger the envelope release on the stored chain and schedule a
cleanup after 500 ms that disposes the captured nodes and deletes the
registry entry. -/
def stopSustainedNote (s : EngineState) (noteId : String) (now : ℕ) :
    EngineState :=
  match alookup noteId s.sustainedNotes with
  | none => s
  | some note =>
    { s with
      sustainedNotes := aset noteId { note with envelope := .releasing }
        s.sustainedNotes,
      timers := s.timers ++
        [⟨now + 500, .disposeSustained noteId
            [note.sourceId, note.envId, note.gainId, note.filterId]⟩] }

/-- `startSustainedDrum` (lines 714-774): same protocol as
`startSustainedNote` with a drum-specific source (kick → 60 Hz sine,
snare and hats → white noise, otherwise 200 Hz triangle) and 0.5 volume
scaling. -/
def startSustainedDrum (s : EngineState) (drumType layerId : String)
    (initialVelocity : ℝ) (now : ℕ) : String × EngineState :=
  match alookup layerId s.layers with
  | none => ("", s)
  | some layer =>
    if layer.muted then ("", s)
    else
      let drumId := layerId ++ "-" ++ drumType ++ "-" ++ toString now
      let sourceAndFreq : SourceKind × Option ℝ :=
        if drumType = "kick" then (.osc 60 .sine, some 60)
        else if drumType = "snare" then (.noise, none)
        else if strIncludes drumType "hat" then (.noise, none)
        else (.osc 200 .triangle, some 200)
      let sourceId := s.nextNodeId
      let envId := s.nextNodeId + 1
      let gainId := s.nextNodeId + 2
      let filterId := s.nextNodeId + 3
      let entry : SustainedNote :=
        { sourceId := sourceId, envId := envId, gainId := gainId,
          filterId := filterId,
          source := sourceAndFreq.1,
          envelope := .attacking,
          gainValue := initialVelocity * layer.volume * 0.5,
          filterFreq := 1000 + initialVelocity * 2000,
          layerId := layerId,
          baseVolume := layer.volume * 0.5,
          baseFrequency := sourceAndFreq.2 }
      (drumId,
        { s with
          sustainedNotes := aset drumId entry s.sustainedNotes,
          nextNodeId := s.nextNodeId + 4 })

/-- Envelope parameters of the `synthParams` bag. -/
structure EnvParams where
  attack : ℝ
  decay : ℝ
  sustain : ℝ
  release : ℝ

/-- Filter parameters of the `synthParams` bag. -/
structure FilterParams where
  frequency : ℝ
  ftype : String
  q : ℝ

/-- Modulation parameters of the `synthParams` bag. -/
structure ModParams where
  frequency : ℝ
  mtype : String

/-- The dynamic `synthParams` parameter bag of `playAdvancedSynth`. -/
structure SynthParams where
  oscillatorType : OscShape
  envelope : EnvParams
  filter : Option FilterParams
  modulation : Option ModParams

/-- The default parameter bag (lines 864-867). -/
def defaultSynthParams : SynthParams :=
  { oscillatorType := .sine,
    envelope := { attack := 0.1, decay := 0.2, sustain := 0.6, release := 0.8 },
    filter := none, modulation := none }

/-- `playAdvancedSynthInternal` (lines 846-961): layer/mute check, source
selection by instrument type, optional filter and (for strings/winds with
modulation) an LFO, final gain `velocity * layer.volume *
globalInstrumentVolume`, cleanup timer after 6000/4000/2000 ms depending
on the instrument (the LFO is never disposed by the source). -/
def playAdvancedSynthInternal (s : EngineState) (frequency : ℝ)
    (layerId : String) (velocity : ℝ) (instrumentType : String)
    (synthParams : Option SynthParams) (now : ℕ) : EngineState :=
  match alookup layerId s.layers with
  | none => s
  | some layer =>
    if layer.muted then s
    else
      let params := synthParams.getD defaultSynthParams
      let osc : SourceKind :=
        if instrumentType = "piano" then .osc frequency .triangle
        else if instrumentType = "bass" then .osc (frequency / 2) params.oscillatorType
        else if instrumentType = "lead" then .osc frequency params.oscillatorType
        else if instrumentType = "pad" then .osc frequency params.oscillatorType
        else if instrumentType = "strings" then .osc frequency .sawtooth
        else if instrumentType = "winds" then .osc frequency .sine
        else .osc frequency params.oscillatorType
      let finalVolume := velocity * layer.volume * s.globalInstrumentVolume
      let oscId := s.nextNodeId
      let envId := s.nextNodeId + 1
      let gainId := s.nextNodeId + 2
      let filterIds := if params.filter.isSome then [s.nextNodeId + 3] else []
      let lfoCreated : Bool := params.modulation.isSome &&
        (instrumentType = "strings" || instrumentType = "winds")
      let lfoIds := if lfoCreated then [s.nextNodeId + 3 + filterIds.length] else []
      let cleanupTime : ℕ :=
        if instrumentType = "piano" then 6000
        else if instrumentType = "pad" then 4000 else 2000
      { s with
        createdChains := s.createdChains ++
          [⟨[oscId, envId, gainId] ++ filterIds ++ lfoIds,
            .advancedSynth instrumentType, osc, finalVolume, true⟩],
        nextNodeId := s.nextNodeId + 3 + filterIds.length + lfoIds.length,
        timers := s.timers ++
          [⟨now + cleanupTime, .disposeOneShot ([oscId, envId, gainId] ++ filterIds)⟩] }

/-- `playAdvancedSynth` (lines 829-844): context-state branch collapsed to
the synchronous retry of the internal routine. -/
def playAdvancedSynth (s : EngineState) (frequency : ℝ) (layerId : String)
    (velocity : ℝ) (instrumentType : String) (synthParams : Option SynthParams)
    (now : ℕ) : EngineState :=
  playAdvancedSynthInternal s frequency layerId velocity instrumentType synthParams now

/-- Run one expired `setTimeout` callback. -/
def fireAction (s : EngineState) : TimerAction → EngineState
  | .disposeSustained noteId nodeIds =>
    { s with
      sustainedNotes := aerase noteId s.sustainedNotes,
      disposedNodes := s.disposedNodes ++ nodeIds }
  | .disposeOneShot nodeIds =>
    { s with disposedNodes := s.disposedNodes ++ nodeIds }

/-- Let wall-clock time reach `t`: fire every pending timer due at or
before `t`, in scheduling order. -/
def elapse (s : EngineState) (t : ℕ) : EngineState :=
  let due := s.timers.filter (fun tm => decide (tm.due ≤ t))
  let rest := s.timers.filter (fun tm => !(decide (tm.due ≤ t)))
  due.foldl (fun st tm => fireAction st tm.action) { s with timers := rest }

/-- A one-shot trigger aimed at a layer (used to state the muted-layer
claim over arbitrary bursts of calls). -/
inductive OneShotTrigger
  | sample (sampleId : String) (velocity : ℝ)
  | syntheticNote (note : String) (velocity : ℝ)
  | advancedSynth (frequency : ℝ) (velocity : ℝ) (instrumentType : String)
      (params : Option SynthParams)

/-- Dispatch one trigger to the corresponding public playback call. -/
def fireTrigger (s : EngineState) (layerId : String) (now : ℕ) :
    OneShotTrigger → EngineState
  | .sample sampleId v => playSample s sampleId layerId v now
  | .syntheticNote n v => playSyntheticNote s n layerId v now
  | .advancedSynth f v it p => playAdvancedSynth s f layerId v it p now

end

/-! ## WAV encoding (WAVGenerator.ts `bufferToWAV`, lines 217-255)

The `DataView` writes are sequential, so the produced `ArrayBuffer` is the
concatenation of the header fields followed by the interleaved samples;
bytes are modelled as natural numbers below 256. -/

/-- `setUint16(_, v, true)`: two little-endian bytes. -/
def le16 (v : ℕ) : List ℕ :=
  [v % 256, v / 256 % 256]

/-- `setUint32(_, v, true)`: four little-endian bytes. -/
def le32 (v : ℕ) : List ℕ :=
  [v % 256, v / 256 % 256, v / 256 ^ 2 % 256, v / 256 ^ 3 % 256]

/-- `writeString`: ASCII codes of a chunk id. -/
def asciiBytes (s : String) : List ℕ :=
  s.data.map (fun c => c.toNat)

/-- JS `ToInteger`: truncation toward zero, applied by `setInt16` to its
float argument. -/
noncomputable def truncR (x : ℝ) : ℤ :=
  if 0 ≤ x then ⌊x⌋ else -⌊-x⌋

/-- One sample as written by the data loop: clamped to [-1, 1], scaled by
0x7FFF and truncated to an integer. -/
noncomputable def sampleToInt16 (x : ℝ) : ℤ :=
  truncR (max (-1) (min 1 x) * 32767)

/-- `setInt16(_, v, true)`: the value is wrapped to 16 bits (two's
complement) and stored as two little-endian bytes. -/
def int16Bytes (v : ℤ) : List ℕ :=
  le16 (v % 65536).toNat

/-- The input `AudioBuffer`: channel count, frame count (`length`), sample
rate and `getChannelData(channel)[frame]`. -/
structure AudioBuffer where
  numberOfChannels : ℕ
  length : ℕ
  sampleRate : ℕ
  channelData : ℕ → ℕ → ℝ

/-- The bytes of frame `i`: one 16-bit sample per channel, in channel
order (inner loop of the data section). -/
noncomputable def frameBytes (b : AudioBuffer) (i : ℕ) : List ℕ :=
  (List.range b.numberOfChannels).flatMap
    (fun channel => int16Bytes (sampleToInt16 (b.channelData channel i)))

/-- The interleaved data section (outer loop over frames). -/
noncomputable def wavData (b : AudioBuffer) : List ℕ :=
  (List.range b.length).flatMap (frameBytes b)

/-- `bufferToWAV`: the 44-byte RIFF/WAVE header followed by the
interleaved 16-bit little-endian samples. -/
noncomputable def bufferToWAV (b : AudioBuffer) : List ℕ :=
  let dataSize := b.length * b.numberOfChannels * 2
  asciiBytes "RIFF" ++ le32 (36 + dataSize) ++
  asciiBytes "WAVE" ++ asciiBytes "fmt " ++
  le32 16 ++ le16 1 ++ le16 b.numberOfChannels ++ le32 b.sampleRate ++
  le32 (b.sampleRate * b.numberOfChannels * 2) ++
  le16 (b.numberOfChannels * 2) ++ le16 16 ++
  asciiBytes "data" ++ le32 dataSize ++ wavData b

/-- Spec-side decoder: read back a two's-complement 16-bit little-endian
sample from two bytes. -/
def decodeInt16 : List ℕ → ℤ
  | [b0, b1] =>
    let u : ℕ := b0 + 256 * b1
    if u < 32768 then (u : ℤ) else (u : ℤ) - 65536
  | _ => 0

/-! ## Concrete states used to exercise the theorems -/

noncomputable section

/-- The gain value currently stored for a sustained note id, if any. -/
def sustainedGain (s : EngineState) (noteId : String) : Option ℝ :=
  (alookup noteId s.sustainedNotes).map (fun n => n.gainValue)

/-- The kinds of the one-shot chains constructed so far, in order. -/
def chainKinds (s : EngineState) : List ChainKind :=
  s.createdChains.map (fun c => c.kind)

/-- An unmuted piano layer at full volume. -/
def pianoLayer : AudioLayer :=
  { id := "piano", name := "Piano", volume := 1, muted := false,
    solo := false, effects := [] }

/-- A registered sustained A4 note owned by the piano layer. -/
def demoNote : SustainedNote :=
  { sourceId := 0, envId := 1, gainId := 2, filterId := 3,
    source := .osc 440 .sine, envelope := .attacking,
    gainValue := 0.28, filterFreq := 3400, layerId := "piano",
    baseVolume := 0.4, baseFrequency := some 440 }

/-- Engine state with the piano layer and one sustained note. -/
def demoState : EngineState :=
  { layers := [("piano", pianoLayer)],
    sustainedNotes := [("n1", demoNote)],
    bufferPool := [], createdChains := [], timers := [],
    disposedNodes := [], nextNodeId := 4, globalInstrumentVolume := 0.5 }

/-- Engine state with the piano layer and an empty registry. -/
def freshState : EngineState :=
  { layers := [("piano", pianoLayer)],
    sustainedNotes := [], bufferPool := [], createdChains := [],
    timers := [], disposedNodes := [], nextNodeId := 0,
    globalInstrumentVolume := 0.5 }

/-- A sustained note registered under a layer id that is no longer in the
layer map. -/
def orphanState : EngineState :=
  { layers := [],
    sustainedNotes := [("n1", demoNote)],
    bufferPool := [], createdChains := [], timers := [],
    disposedNodes := [], nextNodeId := 4, globalInstrumentVolume := 0.5 }

/-- Result of starting a sustained note on `freshState` and never stopping
it. -/
def neverStopped : String × EngineState :=
  startSustainedNote freshState "A4" "piano" 0.7 0

/-- An unmuted drums layer with the kick sample loaded in the pool. -/
def drumsLayer : AudioLayer :=
  { id := "drums", name := "Drums", volume := 1, muted := false,
    solo := false, effects := [] }

/-- Engine state for the sample-pool claim: the kick buffer is loaded. -/
def loadedKickState : EngineState :=
  { layers := [("drums", drumsLayer)],
    sustainedNotes := [], bufferPool := ["kick"], createdChains := [],
    timers := [], disposedNodes := [], nextNodeId := 0,
    globalInstrumentVolume := 0.5 }

/-- A muted drums layer. -/
def mutedLayer : AudioLayer :=
  { id := "drums", name := "Drums", volume := 0.8, muted := true,
    solo := false, effects := [] }

/-- Engine state whose only layer is muted. -/
def mutedState : EngineState :=
  { layers := [("drums", mutedLayer)],
    sustainedNotes := [], bufferPool := [], createdChains := [],
    timers := [], disposedNodes := [], nextNodeId := 0,
    globalInstrumentVolume := 0.5 }

/-- A one-frame mono buffer holding a full-scale sample. -/
def demoBuffer : AudioBuffer :=
  { numberOfChannels := 1, length := 1, sampleRate := 44100,
    channelData := fun _ _ => 1 }

end

/-! ## Association-list lemmas -/

theorem alookup_aerase {α : Type} (k j : String) (l : List (String × α)) :
    alookup k (aerase j l) = if k = j then none else alookup k l := by
  induction l with
  | nil => simp [aerase, alookup]
  | cons p t ih =>
    obtain ⟨k', v⟩ := p
    by_cases h1 : k' = j <;> by_cases h2 : k = k' <;>
      simp [aerase, alookup, h1, h2, ih] <;> simp_all

theorem alookup_aset_self {α : Type} (k : String) (v : α)
    (l : List (String × α)) : alookup k (aset k v l) = some v := by
  simp [aset, alookup]

theorem alookup_aset_ne {α : Type} {k k' : String} (h : k ≠ k') (v : α)
    (l : List (String × α)) : alookup k (aset k' v l) = alookup k l := by
  simp [aset, alookup, h, alookup_aerase]

theorem filter_aerase {α : Type} (k : String) (l : List (String × α)) :
    (aerase k l).filter (fun p => p.1 == k) = [] := by
  induction l with
  | nil => simp [aerase]
  | cons p t ih =>
    obtain ⟨k', v⟩ := p
    by_cases h1 : k' = k <;> simp [aerase, h1, ih]

theorem countKey_aset {α : Type} (k : String) (v : α)
    (l : List (String × α)) : countKey k (aset k v l) = 1 := by
  simp [countKey, aset, List.filter, filter_aerase]

/-! ## Timer-firing lemmas -/

theorem fireAction_preserves_none {s : EngineState} {noteId : String}
    (h : alookup noteId s.sustainedNotes = none) (a : TimerAction) :
    alookup noteId (fireAction s a).sustainedNotes = none := by
  cases a with
  | disposeSustained j ids =>
    simp only [fireAction, alookup_aerase]
    split <;> simp [h]
  | disposeOneShot ids => simpa [fireAction] using h

theorem fireAction_preserves_lookup {s : EngineState} {noteId : String}
    {a : TimerAction} (h : ∀ ids, a ≠ .disposeSustained noteId ids) :
    alookup noteId (fireAction s a).sustainedNotes =
      alookup noteId s.sustainedNotes := by
  cases a with
  | disposeSustained j ids =>
    have hj : noteId ≠ j := by
      intro hcontra; exact h ids (by rw [hcontra])
    simp [fireAction, alookup_aerase, hj]
  | disposeOneShot ids => simp [fireAction]

theorem foldl_fire_preserves_none {noteId : String} (ts : List Timer) :
    ∀ s : EngineState, alookup noteId s.sustainedNotes = none →
      alookup noteId
        (ts.foldl (fun st tm => fireAction st tm.action) s).sustainedNotes
        = none := by
  induction ts with
  | nil => intro s h; simpa using h
  | cons t rest ih =>
    intro s h
    exact ih _ (fireAction_preserves_none h t.action)

theorem foldl_fire_removes {noteId : String} (ts : List Timer) :
    ∀ s : EngineState,
      (∃ tm ∈ ts, ∃ ids, tm.action = .disposeSustained noteId ids) →
      alookup noteId
        (ts.foldl (fun st tm => fireAction st tm.action) s).sustainedNotes
        = none := by
  induction ts with
  | nil => rintro s ⟨tm, h, _⟩; simp at h
  | cons t rest ih =>
    rintro s ⟨tm, hmem, ids, hact⟩
    rcases List.mem_cons.mp hmem with heq | hmem'
    · subst heq
      refine foldl_fire_preserves_none rest _ ?_
      show alookup noteId (fireAction s tm.action).sustainedNotes = none
      rw [hact]
      simp [fireAction, alookup_aerase]
    · exact ih _ ⟨tm, hmem', ids, hact⟩

theorem foldl_fire_preserves_lookup {noteId : String} (ts : List Timer) :
    ∀ s : EngineState,
      (∀ tm ∈ ts, ∀ ids, tm.action ≠ .disposeSustained noteId ids) →
      alookup noteId
        (ts.foldl (fun st tm => fireAction st tm.action) s).sustainedNotes
        = alookup noteId s.sustainedNotes := by
  induction ts with
  | nil => intro s _; rfl
  | cons t rest ih =>
    intro s h
    rw [List.foldl_cons, ih _ (fun tm hm => h tm (List.mem_cons_of_mem _ hm)),
      fireAction_preserves_lookup (h t (List.mem_cons_self _ _))]

theorem elapse_removes {s : EngineState} {noteId : String} {d t : ℕ}
    {ids : List ℕ}
    (hmem : (⟨d, .disposeSustained noteId ids⟩ : Timer) ∈ s.timers)
    (hd : d ≤ t) :
    alookup noteId (elapse s t).sustainedNotes = none := by
  refine foldl_fire_removes _ _ ⟨⟨d, .disposeSustained noteId ids⟩, ?_, ids, rfl⟩
  exact List.mem_filter.mpr ⟨hmem, by simpa using hd⟩

theorem elapse_preserves {s : EngineState} {noteId : String} (t : ℕ)
    (h : ∀ tm ∈ s.timers, ∀ ids, tm.action ≠ .disposeSustained noteId ids) :
    alookup noteId (elapse s t).sustainedNotes =
      alookup noteId s.sustainedNotes := by
  exact foldl_fire_preserves_lookup _ _
    (fun tm hm => h tm (List.mem_of_mem_filter hm))

/-- The generated `layerId-note-timestamp` ids are never the empty
sentinel. -/
theorem dashJoin_ne_empty (a b c : String) : a ++ "-" ++ b ++ "-" ++ c ≠ "" := by
  intro h
  have hlen := congrArg String.length h
  have h1 : ("-" : String).length = 1 := rfl
  have h0 : ("" : String).length = 0 := rfl
  simp only [String.length_append, h1, h0] at hlen
  omega

/-- Stopping a registered note removes it from the registry once the
release-plus-grace timer has fired. -/
theorem stop_then_elapse {s : EngineState} {noteId : String} {now t : ℕ}
    (note : SustainedNote) (h : alookup noteId s.sustainedNotes = some note)
    (ht : now + 500 ≤ t) :
    alookup noteId
      (elapse (stopSustainedNote s noteId now) t).sustainedNotes = none := by
  have hmem : (⟨now + 500, .disposeSustained noteId
      [note.sourceId, note.envId, note.gainId, note.filterId]⟩ : Timer) ∈
      (stopSustainedNote s noteId now).timers := by
    simp [stopSustainedNote, h]
  exact elapse_removes hmem ht

/-- C10: `modulateSustainedNote` on an id that is registered but whose
owning layer id is no longer in the layer map returns without modifying
any parameter and without removing the registry entry — the whole engine
state is left unchanged. -/
theorem modulate_unknown_layer_noop (s : EngineState) (noteId : String)
    (pressure : ℝ) (note : SustainedNote)
    (h1 : alookup noteId s.sustainedNotes = some note)
    (h2 : alookup note.layerId s.layers = none) :
    modulateSustainedNote s noteId pressure = s := by
  simp [modulateSustainedNote, h1, h2]

theorem modulate_unknown_layer_noop_witness :
    alookup "n1" orphanState.sustainedNotes = some demoNote ∧
    alookup demoNote.layerId orphanState.layers = none ∧
    modulateSustainedNote orphanState "n1" 0.5 = orphanState :=
  ⟨by simp [orphanState, alookup],
   by simp [orphanState, demoNote, alookup],
   modulate_unknown_layer_noop _ _ _ demoNote
     (by simp [orphanState, alookup])
     (by simp [orphanState, demoNote, alookup])⟩

/-- C1 (counterexample): at pressure 0 on a registered note the code sets
the gain to `max(0.1, min(1, 0)) * baseVolume * volume = 0.04`, not to
`clamp(0, 0, 1) * baseVolume * volume = 0` as the claim states. -/
theorem modulate_gain_clamp_counterexample :
    sustainedGain (modulateSustainedNote demoState "n1" 0) "n1" = some 0.04 ∧
    (0.04 : ℝ) ≠ max 0 (min 1 (0 : ℝ)) * demoNote.baseVolume * pianoLayer.volume := by
  constructor
  · simp [sustainedGain, modulateSustainedNote, demoState, demoNote,
      pianoLayer, alookup, alookup_aset_self]
    norm_num
  · simp [demoNote, pianoLayer]
    norm_num

/-- C1 (amended): `modulateSustainedNote` on an unknown id is a no-op (no
exception, no registry mutation).  On a registered id with a live layer it
overwrites, in place on the existing nodes (same node ids, no allocation,
no other state change), the gain to
`max(0.1, min(1.0, pressure)) * baseVolume * layer.volume`, the filter
cutoff to `200 + pressure * 3800` — a monotone increasing map of pressure
onto the range 200-4000 Hz — and, for oscillator sources with a base
frequency, the oscillator frequency to
`baseFrequency * (1 + (pressure - 0.5) * 0.02)`, which for pressures in
[0, 1] stays within two percent of the base frequency. -/
theorem modulateSustainedNote_spec (s : EngineState) (noteId : String)
    (pressure : ℝ) :
    (alookup noteId s.sustainedNotes = none →
      modulateSustainedNote s noteId pressure = s) ∧
    (∀ note layer, alookup noteId s.sustainedNotes = some note →
      alookup note.layerId s.layers = some layer →
      ∃ note',
        modulateSustainedNote s noteId pressure =
          { s with sustainedNotes := aset noteId note' s.sustainedNotes } ∧
        note'.gainValue =
          max 0.1 (min 1.0 pressure) * note.baseVolume * layer.volume ∧
        note'.filterFreq = 200 + pressure * 3800 ∧
        note'.sourceId = note.sourceId ∧ note'.envId = note.envId ∧
        note'.gainId = note.gainId ∧ note'.filterId = note.filterId ∧
        note'.envelope = note.envelope ∧ note'.layerId = note.layerId ∧
        note'.baseVolume = note.baseVolume ∧
        note'.baseFrequency = note.baseFrequency ∧
        (∀ f shape, note.source = .osc f shape →
          ∀ bf, note.baseFrequency = some bf →
            note'.source = .osc (bf * (1 + (pressure - 0.5) * 0.02)) shape ∧
            (0 ≤ bf → 0 ≤ pressure → pressure ≤ 1 →
              |bf * (1 + (pressure - 0.5) * 0.02) - bf| ≤ 0.02 * bf)) ∧
        (note.baseFrequency = none → note'.source = note.source) ∧
        (note.source = .noise → note'.source = .noise) ∧
        (0 ≤ pressure → pressure ≤ 1 →
          200 ≤ note'.filterFreq ∧ note'.filterFreq ≤ 4000) ∧
        (∀ p q : ℝ, p < q → 200 + p * 3800 < 200 + q * 3800) ∧
        (∀ y : ℝ, 200 ≤ y → y ≤ 4000 →
          ∃ p, 0 ≤ p ∧ p ≤ 1 ∧ 200 + p * 3800 = y)) := by
  constructor
  · intro h
    simp [modulateSustainedNote, h]
  · intro note layer h1 h2
    obtain ⟨sid, eid, gid, fid, src, env, gv, ff, lid, bv, bfo⟩ := note
    have hpitch : ∀ bf : ℝ, 0 ≤ bf → 0 ≤ pressure → pressure ≤ 1 →
        |bf * (1 + (pressure - 0.5) * 0.02) - bf| ≤ 0.02 * bf := by
      intro bf hbf hp0 hp1
      have heq : bf * (1 + (pressure - 0.5) * 0.02) - bf =
          bf * (pressure - 0.5) * 0.02 := by ring
      rw [heq, abs_le]
      constructor <;> nlinarith
    have hrange : 0 ≤ pressure → pressure ≤ 1 →
        200 ≤ 200 + pressure * 3800 ∧ 200 + pressure * 3800 ≤ 4000 := by
      intro hp0 hp1
      constructor <;> nlinarith
    have hmono : ∀ p q : ℝ, p < q → 200 + p * 3800 < 200 + q * 3800 := by
      intro p q hpq; linarith
    have honto : ∀ y : ℝ, 200 ≤ y → y ≤ 4000 →
        ∃ p, 0 ≤ p ∧ p ≤ 1 ∧ 200 + p * 3800 = y := by
      intro y hy1 hy2
      refine ⟨(y - 200) / 3800, div_nonneg (by linarith) (by norm_num), ?_, ?_⟩
      · rw [div_le_one (by norm_num)]; linarith
      · field_simp
    cases src with
    | osc f shape =>
      cases bfo with
      | none =>
        refine
          ⟨{ sourceId := sid, envId := eid, gainId := gid, filterId := fid,
             source := .osc f shape, envelope := env,
             gainValue := max 0.1 (min 1.0 pressure) * bv * layer.volume,
             filterFreq := 200 + pressure * 3800, layerId := lid,
             baseVolume := bv, baseFrequency := none },
           by simp [modulateSustainedNote, h1, h2], rfl, rfl, rfl,
           rfl, rfl, rfl, rfl, rfl, rfl, rfl, ?_, ?_, ?_, hrange, hmono, honto⟩
        · intro f' shape' _ bf hbf; exact absurd hbf (by simp)
        · intro _; rfl
        · intro hcontra; exact absurd hcontra (by simp)
      | some bf =>
        refine
          ⟨{ sourceId := sid, envId := eid, gainId := gid, filterId := fid,
             source := .osc (bf * (1 + (pressure - 0.5) * 0.02)) shape,
             envelope := env,
             gainValue := max 0.1 (min 1.0 pressure) * bv * layer.volume,
             filterFreq := 200 + pressure * 3800, layerId := lid,
             baseVolume := bv, baseFrequency := some bf },
           by simp [modulateSustainedNote, h1, h2], rfl, rfl, rfl,
           rfl, rfl, rfl, rfl, rfl, rfl, rfl, ?_, ?_, ?_, hrange, hmono, honto⟩
        · intro f' shape' hsrc bf' hbf
          obtain ⟨rfl, rfl⟩ : shape' = shape ∧ bf' = bf := by
            cases hsrc; cases hbf; exact ⟨rfl, rfl⟩
          exact ⟨rfl, hpitch _⟩
        · intro hcontra; exact absurd hcontra (by simp)
        · intro hcontra; exact absurd hcontra (by simp)
    | noise =>
      cases bfo with
      | none =>
        refine
          ⟨{ sourceId := sid, envId := eid, gainId := gid, filterId := fid,
             source := .noise, envelope := env,
             gainValue := max 0.1 (min 1.0 pressure) * bv * layer.volume,
             filterFreq := 200 + pressure * 3800, layerId := lid,
             baseVolume := bv, baseFrequency := none },
           by simp [modulateSustainedNote, h1, h2], rfl, rfl, rfl,
           rfl, rfl, rfl, rfl, rfl, rfl, rfl, ?_, ?_, ?_, hrange, hmono, honto⟩
        · intro f' shape' hcontra; exact absurd hcontra (by simp)
        · intro _; rfl
        · intro _; rfl
      | some bf =>
        refine
          ⟨{ sourceId := sid, envId := eid, gainId := gid, filterId := fid,
             source := .noise, envelope := env,
             gainValue := max 0.1 (min 1.0 pressure) * bv * layer.volume,
             filterFreq := 200 + pressure * 3800, layerId := lid,
             baseVolume := bv, baseFrequency := some bf },
           by simp [modulateSustainedNote, h1, h2], rfl, rfl, rfl,
           rfl, rfl, rfl, rfl, rfl, rfl, rfl, ?_, ?_, ?_, hrange, hmono, honto⟩
        · intro f' shape' hcontra; exact absurd hcontra (by simp)
        · intro hcontra; exact absurd hcontra (by simp)
        · intro _; rfl

theorem modulateSustainedNote_spec_witness :
    alookup "n1" demoState.sustainedNotes = some demoNote ∧
    alookup demoNote.layerId demoState.layers = some pianoLayer ∧
    ∃ note',
      modulateSustainedNote demoState "n1" 0.9 =
        { demoState with
            sustainedNotes := aset "n1" note' demoState.sustainedNotes } ∧
      note'.gainValue =
        max 0.1 (min 1.0 (0.9 : ℝ)) * demoNote.baseVolume * pianoLayer.volume := by
  refine ⟨by simp [demoState, alookup], by simp [demoState, demoNote, pianoLayer, alookup], ?_⟩
  obtain ⟨note', heq, hgain, -⟩ :=
    (modulateSustainedNote_spec demoState "n1" 0.9).2 demoNote pianoLayer
      (by simp [demoState, alookup])
      (by simp [demoState, demoNote, pianoLayer, alookup])
  exact ⟨note', heq, hgain⟩

/-- C4: `startSustainedNote` and `startSustainedDrum` return the empty
sentinel id and change nothing at all when the layer is unknown or muted;
otherwise they return the non-empty freshly generated
`layerId-note-timestamp` id, register exactly one entry under that id with
the envelope attack triggered (and only the attack: no release or disposal
timer is scheduled), and leave the layer map, timers and one-shot chains
untouched. -/
theorem startSustained_protocol (s : EngineState)
    (note drumType layerId : String) (v : ℝ) (now : ℕ) :
    ((alookup layerId s.layers = none ∨
        (∃ l, alookup layerId s.layers = some l ∧ l.muted = true)) →
      startSustainedNote s note layerId v now = ("", s) ∧
      startSustainedDrum s drumType layerId v now = ("", s)) ∧
    (∀ l, alookup layerId s.layers = some l → l.muted = false →
      ((startSustainedNote s note layerId v now).1 =
          layerId ++ "-" ++ note ++ "-" ++ toString now ∧
       (startSustainedNote s note layerId v now).1 ≠ "" ∧
       (∃ e : SustainedNote,
         (startSustainedNote s note layerId v now).2.sustainedNotes =
           aset (startSustainedNote s note layerId v now).1 e
             s.sustainedNotes ∧
         e.envelope = .attacking) ∧
       countKey (startSustainedNote s note layerId v now).1
         (startSustainedNote s note layerId v now).2.sustainedNotes = 1 ∧
       (startSustainedNote s note layerId v now).2.timers = s.timers ∧
       (startSustainedNote s note layerId v now).2.layers = s.layers ∧
       (startSustainedNote s note layerId v now).2.createdChains =
         s.createdChains) ∧
      ((startSustainedDrum s drumType layerId v now).1 =
          layerId ++ "-" ++ drumType ++ "-" ++ toString now ∧
       (startSustainedDrum s drumType layerId v now).1 ≠ "" ∧
       (∃ e : SustainedNote,
         (startSustainedDrum s drumType layerId v now).2.sustainedNotes =
           aset (startSustainedDrum s drumType layerId v now).1 e
             s.sustainedNotes ∧
         e.envelope = .attacking) ∧
       countKey (startSustainedDrum s drumType layerId v now).1
         (startSustainedDrum s drumType layerId v now).2.sustainedNotes = 1 ∧
       (startSustainedDrum s drumType layerId v now).2.timers = s.timers ∧
       (startSustainedDrum s drumType layerId v now).2.layers = s.layers ∧
       (startSustainedDrum s drumType layerId v now).2.createdChains =
         s.createdChains)) := by
  constructor
  · rintro (h | ⟨l, hl, hmut⟩)
    · constructor <;> simp [startSustainedNote, startSustainedDrum, h]
    · constructor <;> simp [startSustainedNote, startSustainedDrum, hl, hmut]
  · intro l hl hmut
    refine ⟨⟨?_, ?_, ?_, ?_, ?_, ?_, ?_⟩, ?_, ?_, ?_, ?_, ?_, ?_, ?_⟩
    · simp [startSustainedNote, hl, hmut]
    · simp only [startSustainedNote, hl, hmut]
      simp only [Bool.false_eq_true, if_false]
      exact dashJoin_ne_empty _ _ _
    · simp only [startSustainedNote, hl, hmut]
      simp only [Bool.false_eq_true, if_false]
      exact ⟨_, rfl, rfl⟩
    · simp only [startSustainedNote, hl, hmut]
      simp only [Bool.false_eq_true, if_false]
      exact countKey_aset _ _ _
    · simp [startSustainedNote, hl, hmut]
    · simp [startSustainedNote, hl, hmut]
    · simp [startSustainedNote, hl, hmut]
    · simp [startSustainedDrum, hl, hmut]
    · simp only [startSustainedDrum, hl, hmut]
      simp only [Bool.false_eq_true, if_false]
      exact dashJoin_ne_empty _ _ _
    · simp only [startSustainedDrum, hl, hmut]
      simp only [Bool.false_eq_true, if_false]
      exact ⟨_, rfl, rfl⟩
    · simp only [startSustainedDrum, hl, hmut]
      simp only [Bool.false_eq_true, if_false]
      exact countKey_aset _ _ _
    · simp [startSustainedDrum, hl, hmut]
    · simp [startSustainedDrum, hl, hmut]
    · simp [startSustainedDrum, hl, hmut]

theorem startSustained_protocol_witness :
    alookup "piano" freshState.layers = some pianoLayer ∧
    pianoLayer.muted = false ∧
    (startSustainedNote freshState "A4" "piano" 0.7 0).1 ≠ "" ∧
    (startSustainedDrum freshState "kick" "piano" 0.7 0).2.timers =
      freshState.timers := by
  have h := (startSustained_protocol freshState "A4" "kick" "piano" 0.7 0).2
    pianoLayer (by simp [freshState, alookup]) (by simp [pianoLayer])
  exact ⟨by simp [freshState, alookup], by simp [pianoLayer],
    h.1.2.1, h.2.2.2.2.2.1⟩

/-- C5: `stopSustainedNote` on an unknown id is a no-op; a second stop on
the same id is safe (the note is still removed once the timers fire); and
a start followed by a stop leaves no trace of the id in the registry once
the release-plus-grace (500 ms) period has elapsed. -/
theorem stopSustainedNote_spec (s : EngineState) (noteId : String) (now : ℕ) :
    (alookup noteId s.sustainedNotes = none →
      stopSustainedNote s noteId now = s) ∧
    (∀ note, alookup noteId s.sustainedNotes = some note →
      (∀ t, now + 500 ≤ t →
        alookup noteId
          (elapse (stopSustainedNote s noteId now) t).sustainedNotes = none) ∧
      (∀ now2 t, now + 500 ≤ t →
        alookup noteId
          (elapse (stopSustainedNote (stopSustainedNote s noteId now) noteId
            now2) t).sustainedNotes = none)) ∧
    (∀ layerId noteName : String, ∀ v : ℝ, ∀ l : AudioLayer, ∀ n1 n2 t : ℕ,
      alookup layerId s.layers = some l → l.muted = false → n2 + 500 ≤ t →
      alookup (startSustainedNote s noteName layerId v n1).1
        (elapse (stopSustainedNote (startSustainedNote s noteName layerId v n1).2
          (startSustainedNote s noteName layerId v n1).1 n2) t).sustainedNotes
        = none) := by
  refine ⟨?_, ?_, ?_⟩
  · intro h
    simp [stopSustainedNote, h]
  · intro note h
    constructor
    · intro t ht
      exact stop_then_elapse note h ht
    · intro now2 t ht
      have h2 : alookup noteId (stopSustainedNote s noteId now).sustainedNotes
          = some { note with envelope := .releasing } := by
        simp [stopSustainedNote, h, alookup_aset_self]
      have hmem : (⟨now + 500, .disposeSustained noteId
          [note.sourceId, note.envId, note.gainId, note.filterId]⟩ : Timer) ∈
          (stopSustainedNote (stopSustainedNote s noteId now) noteId
            now2).timers := by
        simp [stopSustainedNote, h, h2, alookup_aset_self]
      exact elapse_removes hmem ht
  · intro layerId noteName v l n1 n2 t hl hmut ht
    have hreg : ∃ e, alookup (startSustainedNote s noteName layerId v n1).1
        (startSustainedNote s noteName layerId v n1).2.sustainedNotes =
          some e := by
      simp only [startSustainedNote, hl, hmut]
      simp only [Bool.false_eq_true, if_false]
      exact ⟨_, alookup_aset_self _ _ _⟩
    obtain ⟨e, he⟩ := hreg
    exact stop_then_elapse e he ht

theorem stopSustainedNote_spec_witness :
    alookup "n1" demoState.sustainedNotes = some demoNote ∧
    alookup "ghost" demoState.sustainedNotes = none ∧
    stopSustainedNote demoState "ghost" 0 = demoState ∧
    alookup "n1"
      (elapse (stopSustainedNote demoState "n1" 0) 500).sustainedNotes =
      none := by
  have h1 := stopSustainedNote_spec demoState "n1" 0
  have h2 := stopSustainedNote_spec demoState "ghost" 0
  exact ⟨by simp [demoState, alookup], by simp [demoState, alookup],
    h2.1 (by simp [demoState, alookup]),
    (h1.2.1 demoNote (by simp [demoState, alookup])).1 500 (by norm_num)⟩

/-- C2 (counterexample): a sustained note that is started and never
stopped is still registered one billion milliseconds later, and no
disposal is even scheduled (the timer queue is empty) — there is no
maximum-sustain watchdog bounding its lifetime. -/
theorem sustained_no_watchdog_counterexample :
    neverStopped.2.timers = [] ∧
    (alookup neverStopped.1
      (elapse neverStopped.2 1000000000).sustainedNotes).isSome = true := by
  have htimers : neverStopped.2.timers = [] := by
    simp [neverStopped, startSustainedNote, freshState, pianoLayer, alookup]
  refine ⟨htimers, ?_⟩
  rw [elapse_preserves _ (by rw [htimers]; intro tm hm; simp at hm)]
  simp only [neverStopped, startSustainedNote]
  simp only [freshState, pianoLayer, alookup]
  simp [alookup_aset_self]

/-- C2 (amended): the source schedules no watchdog: a successful
`startSustainedNote`/`startSustainedDrum` adds no timer, and as long as no
`stopSustainedNote` is issued for the returned id its registry entry
survives any passage of time; disposal happens only through
`stopSustainedNote`, which removes the entry once its 500 ms
release-plus-grace timer has fired. -/
theorem sustained_disposal_only_via_stop (s : EngineState)
    (noteName drumType layerId : String) (v : ℝ) (now : ℕ) (l : AudioLayer)
    (hl : alookup layerId s.layers = some l) (hmut : l.muted = false) :
    ((startSustainedNote s noteName layerId v now).2.timers = s.timers ∧
     (alookup (startSustainedNote s noteName layerId v now).1
        (startSustainedNote s noteName layerId v now).2.sustainedNotes).isSome
        = true ∧
     (∀ t, (∀ tm ∈ s.timers, ∀ ids, tm.action ≠
          TimerAction.disposeSustained
            (startSustainedNote s noteName layerId v now).1 ids) →
        (alookup (startSustainedNote s noteName layerId v now).1
          (elapse (startSustainedNote s noteName layerId v now).2
            t).sustainedNotes).isSome = true) ∧
     (∀ now2 t, now2 + 500 ≤ t →
        alookup (startSustainedNote s noteName layerId v now).1
          (elapse (stopSustainedNote
            (startSustainedNote s noteName layerId v now).2
            (startSustainedNote s noteName layerId v now).1 now2)
            t).sustainedNotes = none)) ∧
    ((startSustainedDrum s drumType layerId v now).2.timers = s.timers ∧
     (∀ t, (∀ tm ∈ s.timers, ∀ ids, tm.action ≠
          TimerAction.disposeSustained
            (startSustainedDrum s drumType layerId v now).1 ids) →
        (alookup (startSustainedDrum s drumType layerId v now).1
          (elapse (startSustainedDrum s drumType layerId v now).2
            t).sustainedNotes).isSome = true)) := by
  have htimersN : (startSustainedNote s noteName layerId v now).2.timers =
      s.timers := by
    simp [startSustainedNote, hl, hmut]
  have htimersD : (startSustainedDrum s drumType layerId v now).2.timers =
      s.timers := by
    simp [startSustainedDrum, hl, hmut]
  have hregN : (alookup (startSustainedNote s noteName layerId v now).1
      (startSustainedNote s noteName layerId v now).2.sustainedNotes).isSome
      = true := by
    simp only [startSustainedNote, hl, hmut]
    simp only [Bool.false_eq_true, if_false]
    simp [alookup_aset_self]
  have hregD : (alookup (startSustainedDrum s drumType layerId v now).1
      (startSustainedDrum s drumType layerId v now).2.sustainedNotes).isSome
      = true := by
    simp only [startSustainedDrum, hl, hmut]
    simp only [Bool.false_eq_true, if_false]
    simp [alookup_aset_self]
  refine ⟨⟨htimersN, hregN, ?_, ?_⟩, htimersD, ?_⟩
  · intro t hno
    rw [elapse_preserves t (fun tm hm => hno tm (htimersN ▸ hm))]
    exact hregN
  · intro now2 t ht
    obtain ⟨e, he⟩ := Option.isSome_iff_exists.mp hregN
    exact stop_then_elapse e he ht
  · intro t hno
    rw [elapse_preserves t (fun tm hm => hno tm (htimersD ▸ hm))]
    exact hregD

theorem sustained_disposal_only_via_stop_witness :
    alookup "piano" freshState.layers = some pianoLayer ∧
    pianoLayer.muted = false ∧
    (startSustainedNote freshState "A4" "piano" 0.7 0).2.timers =
      freshState.timers ∧
    (alookup (startSustainedNote freshState "A4" "piano" 0.7 0).1
      (elapse (startSustainedNote freshState "A4" "piano" 0.7 0).2
        777777).sustainedNotes).isSome = true := by
  have h := sustained_disposal_only_via_stop freshState "A4" "kick" "piano"
    0.7 0 pianoLayer (by simp [freshState, alookup]) (by simp [pianoLayer])
  refine ⟨by simp [freshState, alookup], by simp [pianoLayer], h.1.1, ?_⟩
  exact h.1.2.2.1 777777 (by intro tm hm; simp [freshState] at hm)

/-- C8: on a muted layer, every one-shot trigger — `playSample`,
`playSyntheticNote`, `playAdvancedSynth` — returns at the mute check: no
nodes are allocated, no chain is connected to the master bus and the whole
engine state is unchanged, for any number of such calls. -/
theorem muted_layer_triggers_noop (s : EngineState) (layerId : String)
    (l : AudioLayer) (hl : alookup layerId s.layers = some l)
    (hmut : l.muted = true) :
    (∀ sampleId v now, playSample s sampleId layerId v now = s) ∧
    (∀ noteName v now, playSyntheticNote s noteName layerId v now = s) ∧
    (∀ f v instrumentType params now,
      playAdvancedSynth s f layerId v instrumentType params now = s) ∧
    (∀ (evs : List OneShotTrigger) (now : ℕ),
      evs.foldl (fun st e => fireTrigger st layerId now e) s = s) := by
  have h1 : ∀ sampleId v now, playSample s sampleId layerId v now = s := by
    intro sampleId v now
    simp [playSample, hl, hmut]
  have h2 : ∀ noteName v now, playSyntheticNote s noteName layerId v now = s := by
    intro noteName v now
    simp [playSyntheticNote, hl, hmut]
  have h3 : ∀ f v instrumentType params now,
      playAdvancedSynth s f layerId v instrumentType params now = s := by
    intro f v instrumentType params now
    simp [playAdvancedSynth, playAdvancedSynthInternal, hl, hmut]
  refine ⟨h1, h2, h3, ?_⟩
  intro evs now
  induction evs with
  | nil => rfl
  | cons e rest ih =>
    have hfe : fireTrigger s layerId now e = s := by
      cases e with
      | sample sid v => exact h1 sid v now
      | syntheticNote n v => exact h2 n v now
      | advancedSynth f v it p => exact h3 f v it p now
    calc (e :: rest).foldl (fun st ev => fireTrigger st layerId now ev) s
        = rest.foldl (fun st ev => fireTrigger st layerId now ev)
            (fireTrigger s layerId now e) := by rw [List.foldl_cons]
      _ = rest.foldl (fun st ev => fireTrigger st layerId now ev) s := by
            rw [hfe]
      _ = s := ih

theorem muted_layer_triggers_noop_witness :
    alookup "drums" mutedState.layers = some mutedLayer ∧
    mutedLayer.muted = true ∧
    playSample mutedState "kick" "drums" 1 0 = mutedState ∧
    [OneShotTrigger.sample "kick" 1,
     OneShotTrigger.syntheticNote "C4" 0.5,
     OneShotTrigger.advancedSynth 440 0.7 "piano" none].foldl
        (fun st e => fireTrigger st "drums" 0 e) mutedState = mutedState := by
  have h := muted_layer_triggers_noop mutedState "drums" mutedLayer
    (by simp [mutedState, alookup]) (by simp [mutedLayer])
  exact ⟨by simp [mutedState, alookup], by simp [mutedLayer],
    h.1 "kick" 1 0, h.2.2.2 _ 0⟩

/-- C3 (code bug, evaluated at the failing input): with the kick buffer
loaded in the sample pool and an unmuted live layer, `playSample` still
constructs a synthetic drum chain — the `TEMPORARY` debugging branch at
AudioEngine.ts lines 468-471 forces synthesis and no sample-player chain
is ever built, contrary to the sample-pool-first contract. -/
theorem playSample_forced_synthetic_eval :
    "kick" ∈ loadedKickState.bufferPool ∧
    chainKinds (playSample loadedKickState "kick" "drums" 1 0) =
      [ChainKind.syntheticDrum "kick"] ∧
    ChainKind.samplePlayer "kick" ∉
      chainKinds (playSample loadedKickState "kick" "drums" 1 0) := by
  have heval : chainKinds (playSample loadedKickState "kick" "drums" 1 0) =
      [ChainKind.syntheticDrum "kick"] := by
    simp [chainKinds, playSample, playSampleInternal, playSyntheticDrum,
      loadedKickState, drumsLayer, alookup]
  refine ⟨by simp [loadedKickState], heval, ?_⟩
  rw [heval]
  simp

/-! ## Pitch-utility lemmas -/

/-- Strings outside the regex language never hit the simple table: every
key of `simpleNoteMap` matches the regex. -/
theorem matchNote_none_simpleNoteMap {s : String} (h : matchNote s = none) :
    simpleNoteMap s = none := by
  have key : ∀ t : String, matchNote t ≠ none → s ≠ t := by
    intro t hparse hst
    rw [hst] at h
    exact hparse h
  have h1 := key "C4" (by decide)
  have h2 := key "C#4" (by decide)
  have h3 := key "D4" (by decide)
  have h4 := key "D#4" (by decide)
  have h5 := key "E4" (by decide)
  have h6 := key "F4" (by decide)
  have h7 := key "F#4" (by decide)
  have h8 := key "G4" (by decide)
  have h9 := key "G#4" (by decide)
  have h10 := key "A4" (by decide)
  have h11 := key "A#4" (by decide)
  have h12 := key "B4" (by decide)
  simp [simpleNoteMap, h1, h2, h3, h4, h5, h6, h7, h8, h9, h10, h11, h12]

/-- On strings the regex rejects, the own-key table misses too, so the
regex path of `noteToFrequency` yields the 440 Hz default. -/
theorem noteToFrequency_regex_reject (s : String)
    (h : matchNote s = none) : noteToFrequency s = 440 := by
  have hs := matchNote_none_simpleNoteMap h
  simp [noteToFrequency, hs, h]

/-- No `Object.prototype` member name matches the note regex (they all
start with a lowercase letter or an underscore). -/
theorem objectPrototypeKeys_not_notes :
    ∀ s ∈ objectPrototypeKeys, matchNote s = none := by
  decide

/-- C7 (counterexample): `"constructor"` is malformed, yet the source's
object-literal lookup finds the inherited truthy
`Object.prototype.constructor` and returns that member — not 440. -/
theorem noteToFrequency_proto_counterexample :
    matchNote "constructor" = none ∧
    noteToFrequencyJS "constructor" = .protoMember "constructor" ∧
    JSValue.protoMember "constructor" ≠ JSValue.num 440 := by
  refine ⟨by decide, ?_, by simp⟩
  have hs : simpleNoteMap "constructor" = none :=
    matchNote_none_simpleNoteMap (by decide)
  simp only [noteToFrequencyJS, hs]
  rw [if_pos (by decide)]

/-- C7 (amended): every malformed note string — one not matching the
accepted `[A-G](#)?[0-9]+` format — other than the twelve inherited
`Object.prototype` member names is mapped to the 440 Hz (A4) default, and
the function is total, so no exception can escape; for those twelve names
the plain-object lookup returns the inherited truthy member instead of a
number. -/
theorem noteToFrequencyJS_malformed_default (s : String)
    (hm : matchNote s = none) :
    (s ∉ objectPrototypeKeys → noteToFrequencyJS s = .num 440) ∧
    (s ∈ objectPrototypeKeys → noteToFrequencyJS s = .protoMember s) := by
  have hs := matchNote_none_simpleNoteMap hm
  constructor
  · intro hp
    simp only [noteToFrequencyJS, hs]
    rw [if_neg hp, noteToFrequency_regex_reject s hm]
  · intro hp
    simp only [noteToFrequencyJS, hs]
    rw [if_pos hp]

theorem noteToFrequencyJS_malformed_default_witness :
    matchNote "H4x" = none ∧ ("H4x" ∉ objectPrototypeKeys) ∧
    noteToFrequencyJS "H4x" = .num 440 ∧
    matchNote "toString" = none ∧ ("toString" ∈ objectPrototypeKeys) ∧
    noteToFrequencyJS "toString" = .protoMember "toString" := by
  refine ⟨by decide, by decide, ?_, by decide, by decide, ?_⟩
  · exact (noteToFrequencyJS_malformed_default "H4x" (by decide)).1
      (by decide)
  · exact (noteToFrequencyJS_malformed_default "toString" (by decide)).2
      (by decide)

/-- `2^(a/12)` raised to the 12th power is `2^a`. -/
theorem rpow_div12_pow (a : ℤ) :
    ((2:ℝ) ^ ((a : ℝ) / 12)) ^ (12:ℕ) = (2:ℝ) ^ a := by
  rw [← Real.rpow_natCast ((2:ℝ) ^ ((a : ℝ) / 12)) 12,
    ← Real.rpow_mul (by norm_num : (0:ℝ) ≤ 2)]
  rw [show (a : ℝ) / 12 * ((12:ℕ) : ℝ) = (a : ℝ) by push_cast; ring]
  exact Real.rpow_intCast 2 a

/-- Rational lower bounds for twelfth roots, via 12th powers. -/
theorem lt_rpow_div12 {q : ℝ} {a : ℤ} (h : q ^ (12:ℕ) < (2:ℝ) ^ a) :
    q < (2:ℝ) ^ ((a : ℝ) / 12) := by
  refine lt_of_pow_lt_pow_left₀ 12 (Real.rpow_nonneg (by norm_num) _) ?_
  rw [rpow_div12_pow]
  exact h

/-- Rational upper bounds for twelfth roots, via 12th powers. -/
theorem rpow_div12_lt {q : ℝ} {a : ℤ} (hq : 0 ≤ q)
    (h : (2:ℝ) ^ a < q ^ (12:ℕ)) : (2:ℝ) ^ ((a : ℝ) / 12) < q := by
  refine lt_of_pow_lt_pow_left₀ 12 hq ?_
  rw [rpow_div12_pow]
  exact h

theorem noteFreqFormula_pos (i : ℤ) : 0 < noteFreqFormula i := by
  unfold noteFreqFormula
  positivity

theorem noteFreqFormula_eq (i : ℤ) :
    noteFreqFormula i = 440 * (2:ℝ) ^ (((i - 57 : ℤ) : ℝ) / 12) := by
  unfold noteFreqFormula
  congr 2
  push_cast
  ring

theorem noteFreqFormula_shift (i j : ℤ) :
    noteFreqFormula (i + j) =
      noteFreqFormula i * (2:ℝ) ^ ((j : ℝ) / 12) := by
  unfold noteFreqFormula
  rw [mul_assoc, ← Real.rpow_add (by norm_num : (0:ℝ) < 2)]
  congr 2
  push_cast
  ring

/-- One octave up is exactly a factor of two in the ideal formula. -/
theorem noteFreqFormula_double (i : ℤ) :
    noteFreqFormula (i + 12) = 2 * noteFreqFormula i := by
  rw [noteFreqFormula_shift,
    show ((12:ℤ) : ℝ) / 12 = 1 by norm_num, Real.rpow_one]
  ring

/-- Uniform scheme for rational two-sided bounds on `noteFreqFormula`. -/
theorem freqBound_of (i a : ℤ) (lo hi : ℝ) (hia : i - 57 = a)
    (h1 : lo ^ (12:ℕ) < (2:ℝ) ^ a) (h2 : (2:ℝ) ^ a < hi ^ (12:ℕ))
    (hhi : 0 ≤ hi) :
    440 * lo < noteFreqFormula i ∧ noteFreqFormula i < 440 * hi := by
  have e : noteFreqFormula i = 440 * (2:ℝ) ^ ((a : ℝ) / 12) := by
    rw [noteFreqFormula_eq, hia]
  rw [e]
  constructor
  · have := lt_rpow_div12 h1
    linarith
  · have := rpow_div12_lt hhi h2
    linarith

theorem freqBound48 : 440 * (5946035/10^7 : ℝ) < noteFreqFormula 48 ∧
    noteFreqFormula 48 < 440 * (5946036/10^7 : ℝ) :=
  freqBound_of 48 (-9) _ _ (by decide) (by norm_num) (by norm_num) (by norm_num)

theorem freqBound49 : 440 * (6299605/10^7 : ℝ) < noteFreqFormula 49 ∧
    noteFreqFormula 49 < 440 * (6299606/10^7 : ℝ) :=
  freqBound_of 49 (-8) _ _ (by decide) (by norm_num) (by norm_num) (by norm_num)

theorem freqBound50 : 440 * (6674199/10^7 : ℝ) < noteFreqFormula 50 ∧
    noteFreqFormula 50 < 440 * (6674200/10^7 : ℝ) :=
  freqBound_of 50 (-7) _ _ (by decide) (by norm_num) (by norm_num) (by norm_num)

theorem freqBound51 : 440 * (7071067/10^7 : ℝ) < noteFreqFormula 51 ∧
    noteFreqFormula 51 < 440 * (7071068/10^7 : ℝ) :=
  freqBound_of 51 (-6) _ _ (by decide) (by norm_num) (by norm_num) (by norm_num)

theorem freqBound52 : 440 * (7491535/10^7 : ℝ) < noteFreqFormula 52 ∧
    noteFreqFormula 52 < 440 * (7491536/10^7 : ℝ) :=
  freqBound_of 52 (-5) _ _ (by decide) (by norm_num) (by norm_num) (by norm_num)

theorem freqBound53 : 440 * (7937005/10^7 : ℝ) < noteFreqFormula 53 ∧
    noteFreqFormula 53 < 440 * (7937006/10^7 : ℝ) :=
  freqBound_of 53 (-4) _ _ (by decide) (by norm_num) (by norm_num) (by norm_num)

theorem freqBound54 : 440 * (8408964/10^7 : ℝ) < noteFreqFormula 54 ∧
    noteFreqFormula 54 < 440 * (8408965/10^7 : ℝ) :=
  freqBound_of 54 (-3) _ _ (by decide) (by norm_num) (by norm_num) (by norm_num)

theorem freqBound55 : 440 * (8908987/10^7 : ℝ) < noteFreqFormula 55 ∧
    noteFreqFormula 55 < 440 * (8908988/10^7 : ℝ) :=
  freqBound_of 55 (-2) _ _ (by decide) (by norm_num) (by norm_num) (by norm_num)

theorem freqBound56 : 440 * (9438743/10^7 : ℝ) < noteFreqFormula 56 ∧
    noteFreqFormula 56 < 440 * (9438744/10^7 : ℝ) :=
  freqBound_of 56 (-1) _ _ (by decide) (by norm_num) (by norm_num) (by norm_num)

theorem freqBound57 : 440 * (9999999/10^7 : ℝ) < noteFreqFormula 57 ∧
    noteFreqFormula 57 < 440 * (10000001/10^7 : ℝ) :=
  freqBound_of 57 0 _ _ (by decide) (by norm_num) (by norm_num) (by norm_num)

theorem freqBound58 : 440 * (10594630/10^7 : ℝ) < noteFreqFormula 58 ∧
    noteFreqFormula 58 < 440 * (10594631/10^7 : ℝ) :=
  freqBound_of 58 1 _ _ (by decide) (by norm_num) (by norm_num) (by norm_num)

theorem freqBound59 : 440 * (11224620/10^7 : ℝ) < noteFreqFormula 59 ∧
    noteFreqFormula 59 < 440 * (11224621/10^7 : ℝ) :=
  freqBound_of 59 2 _ _ (by decide) (by norm_num) (by norm_num) (by norm_num)

/-- Which literal key and value a successful simple-table hit came from. -/
theorem simpleNoteMap_cases {s : String} {q : ℚ} (h : simpleNoteMap s = some q) :
    (s = "C4" ∧ q = 261.63) ∨ (s = "C#4" ∧ q = 277.18) ∨
    (s = "D4" ∧ q = 293.66) ∨ (s = "D#4" ∧ q = 311.13) ∨
    (s = "E4" ∧ q = 329.63) ∨ (s = "F4" ∧ q = 349.23) ∨
    (s = "F#4" ∧ q = 369.99) ∨ (s = "G4" ∧ q = 392.00) ∨
    (s = "G#4" ∧ q = 415.30) ∨ (s = "A4" ∧ q = 440.00) ∨
    (s = "A#4" ∧ q = 466.16) ∨ (s = "B4" ∧ q = 493.88) := by
  unfold simpleNoteMap at h
  by_cases h1 : s = "C4"
  · rw [if_pos h1] at h
    exact Or.inl ⟨h1, (Option.some.inj h).symm⟩
  rw [if_neg h1] at h
  by_cases h2 : s = "C#4"
  · rw [if_pos h2] at h
    exact Or.inr (Or.inl ⟨h2, (Option.some.inj h).symm⟩)
  rw [if_neg h2] at h
  by_cases h3 : s = "D4"
  · rw [if_pos h3] at h
    exact Or.inr (Or.inr (Or.inl ⟨h3, (Option.some.inj h).symm⟩))
  rw [if_neg h3] at h
  by_cases h4 : s = "D#4"
  · rw [if_pos h4] at h
    exact Or.inr (Or.inr (Or.inr (Or.inl ⟨h4, (Option.some.inj h).symm⟩)))
  rw [if_neg h4] at h
  by_cases h5 : s = "E4"
  · rw [if_pos h5] at h
    exact Or.inr (Or.inr (Or.inr (Or.inr (Or.inl
      ⟨h5, (Option.some.inj h).symm⟩))))
  rw [if_neg h5] at h
  by_cases h6 : s = "F4"
  · rw [if_pos h6] at h
    exact Or.inr (Or.inr (Or.inr (Or.inr (Or.inr (Or.inl
      ⟨h6, (Option.some.inj h).symm⟩)))))
  rw [if_neg h6] at h
  by_cases h7 : s = "F#4"
  · rw [if_pos h7] at h
    exact Or.inr (Or.inr (Or.inr (Or.inr (Or.inr (Or.inr (Or.inl
      ⟨h7, (Option.some.inj h).symm⟩))))))
  rw [if_neg h7] at h
  by_cases h8 : s = "G4"
  · rw [if_pos h8] at h
    exact Or.inr (Or.inr (Or.inr (Or.inr (Or.inr (Or.inr (Or.inr (Or.inl
      ⟨h8, (Option.some.inj h).symm⟩)))))))
  rw [if_neg h8] at h
  by_cases h9 : s = "G#4"
  · rw [if_pos h9] at h
    exact Or.inr (Or.inr (Or.inr (Or.inr (Or.inr (Or.inr (Or.inr (Or.inr
      (Or.inl ⟨h9, (Option.some.inj h).symm⟩))))))))
  rw [if_neg h9] at h
  by_cases h10 : s = "A4"
  · rw [if_pos h10] at h
    exact Or.inr (Or.inr (Or.inr (Or.inr (Or.inr (Or.inr (Or.inr (Or.inr
      (Or.inr (Or.inl ⟨h10, (Option.some.inj h).symm⟩)))))))))
  rw [if_neg h10] at h
  by_cases h11 : s = "A#4"
  · rw [if_pos h11] at h
    exact Or.inr (Or.inr (Or.inr (Or.inr (Or.inr (Or.inr (Or.inr (Or.inr
      (Or.inr (Or.inr (Or.inl ⟨h11, (Option.some.inj h).symm⟩))))))))))
  rw [if_neg h11] at h
  by_cases h12 : s = "B4"
  · rw [if_pos h12] at h
    exact Or.inr (Or.inr (Or.inr (Or.inr (Or.inr (Or.inr (Or.inr (Or.inr
      (Or.inr (Or.inr (Or.inr ⟨h12, (Option.some.inj h).symm⟩))))))))))
  rw [if_neg h12] at h
  exact absurd h (by simp)

/-- On the regex path, `noteToFrequency` computes exactly the ideal
formula at the note's chromatic index. -/
theorem noteToFrequency_formula {s name : String} {octave k : ℕ}
    (hm : matchNote s = some (name, octave)) (ho : noteOffsets name = some k)
    (hs : simpleNoteMap s = none) :
    noteToFrequency s = noteFreqFormula ((octave : ℤ) * 12 + k) := by
  simp only [noteToFrequency, hs, hm, ho]
  rw [noteFreqFormula_eq, mul_assoc,
    ← Real.rpow_add (by norm_num : (0:ℝ) < 2)]
  congr 2
  push_cast
  ring

/-- Every value of `noteToFrequency` on a parsed note string lies within
a relative 1/50000 of the ideal equal-temperament formula (the hardcoded
octave-4 table is rounded to two decimals, all within that tolerance). -/
theorem freqApprox {s : String} {i : ℤ} (h : noteIndex s = some i) :
    noteFreqFormula i * (1 - 1/50000) < noteToFrequency s ∧
    noteToFrequency s < noteFreqFormula i * (1 + 1/50000) := by
  rcases hsm : simpleNoteMap s with - | q
  · rcases hm : matchNote s with - | ⟨name, octave⟩
    · simp [noteIndex, hm] at h
    rcases ho : noteOffsets name with - | k
    · simp [noteIndex, hm, ho] at h
    have hi : i = (octave : ℤ) * 12 + k := by
      simp [noteIndex, hm, ho] at h
      omega
    subst hi
    rw [noteToFrequency_formula hm ho hsm]
    have hp := noteFreqFormula_pos ((octave : ℤ) * 12 + k)
    constructor <;> nlinarith
  · have hval : noteToFrequency s = (q : ℝ) := by
      simp [noteToFrequency, hsm]
    rcases simpleNoteMap_cases hsm with ⟨hs, hq⟩ | ⟨hs, hq⟩ | ⟨hs, hq⟩ |
      ⟨hs, hq⟩ | ⟨hs, hq⟩ | ⟨hs, hq⟩ | ⟨hs, hq⟩ | ⟨hs, hq⟩ | ⟨hs, hq⟩ |
      ⟨hs, hq⟩ | ⟨hs, hq⟩ | ⟨hs, hq⟩
    · subst hs; subst hq
      have hi : i = 48 := by
        rw [show noteIndex "C4" = some 48 from by decide] at h
        exact (Option.some.inj h).symm
      subst hi
      rw [hval]
      have hb := freqBound48
      constructor <;> (push_cast; linarith [hb.1, hb.2])
    · subst hs; subst hq
      have hi : i = 49 := by
        rw [show noteIndex "C#4" = some 49 from by decide] at h
        exact (Option.some.inj h).symm
      subst hi
      rw [hval]
      have hb := freqBound49
      constructor <;> (push_cast; linarith [hb.1, hb.2])
    · subst hs; subst hq
      have hi : i = 50 := by
        rw [show noteIndex "D4" = some 50 from by decide] at h
        exact (Option.some.inj h).symm
      subst hi
      rw [hval]
      have hb := freqBound50
      constructor <;> (push_cast; linarith [hb.1, hb.2])
    · subst hs; subst hq
      have hi : i = 51 := by
        rw [show noteIndex "D#4" = some 51 from by decide] at h
        exact (Option.some.inj h).symm
      subst hi
      rw [hval]
      have hb := freqBound51
      constructor <;> (push_cast; linarith [hb.1, hb.2])
    · subst hs; subst hq
      have hi : i = 52 := by
        rw [show noteIndex "E4" = some 52 from by decide] at h
        exact (Option.some.inj h).symm
      subst hi
      rw [hval]
      have hb := freqBound52
      constructor <;> (push_cast; linarith [hb.1, hb.2])
    · subst hs; subst hq
      have hi : i = 53 := by
        rw [show noteIndex "F4" = some 53 from by decide] at h
        exact (Option.some.inj h).symm
      subst hi
      rw [hval]
      have hb := freqBound53
      constructor <;> (push_cast; linarith [hb.1, hb.2])
    · subst hs; subst hq
      have hi : i = 54 := by
        rw [show noteIndex "F#4" = some 54 from by decide] at h
        exact (Option.some.inj h).symm
      subst hi
      rw [hval]
      have hb := freqBound54
      constructor <;> (push_cast; linarith [hb.1, hb.2])
    · subst hs; subst hq
      have hi : i = 55 := by
        rw [show noteIndex "G4" = some 55 from by decide] at h
        exact (Option.some.inj h).symm
      subst hi
      rw [hval]
      have hb := freqBound55
      constructor <;> (push_cast; linarith [hb.1, hb.2])
    · subst hs; subst hq
      have hi : i = 56 := by
        rw [show noteIndex "G#4" = some 56 from by decide] at h
        exact (Option.some.inj h).symm
      subst hi
      rw [hval]
      have hb := freqBound56
      constructor <;> (push_cast; linarith [hb.1, hb.2])
    · subst hs; subst hq
      have hi : i = 57 := by
        rw [show noteIndex "A4" = some 57 from by decide] at h
        exact (Option.some.inj h).symm
      subst hi
      rw [hval]
      have hb := freqBound57
      constructor <;> (push_cast; linarith [hb.1, hb.2])
    · subst hs; subst hq
      have hi : i = 58 := by
        rw [show noteIndex "A#4" = some 58 from by decide] at h
        exact (Option.some.inj h).symm
      subst hi
      rw [hval]
      have hb := freqBound58
      constructor <;> (push_cast; linarith [hb.1, hb.2])
    · subst hs; subst hq
      have hi : i = 59 := by
        rw [show noteIndex "B4" = some 59 from by decide] at h
        exact (Option.some.inj h).symm
      subst hi
      rw [hval]
      have hb := freqBound59
      constructor <;> (push_cast; linarith [hb.1, hb.2])

/-- C6: over all strings accepted by the note parser, `noteToFrequency`
is strictly increasing in the chromatic index `octave*12 + semitone`, and
raising the octave of a note name by one doubles the frequency to within
the spec's 0.01 percent relative tolerance (the octave-4 values are
hardcoded decimal roundings, exact elsewhere). -/
theorem noteToFrequency_monotone_octave_doubling :
    (∀ s1 s2 : String, ∀ i1 i2 : ℤ, noteIndex s1 = some i1 →
      noteIndex s2 = some i2 → i1 < i2 →
      noteToFrequency s1 < noteToFrequency s2) ∧
    (∀ s s' name : String, ∀ octave k : ℕ,
      matchNote s = some (name, octave) →
      matchNote s' = some (name, octave + 1) →
      noteOffsets name = some k →
      |noteToFrequency s' - 2 * noteToFrequency s| ≤
        2 * noteToFrequency s * (1/10000)) := by
  constructor
  · intro s1 s2 i1 i2 h1 h2 hlt
    obtain ⟨a1, a2⟩ := freqApprox h1
    obtain ⟨b1, b2⟩ := freqApprox h2
    have hF1 := noteFreqFormula_pos i1
    have hshift : noteFreqFormula i2 =
        noteFreqFormula i1 * (2:ℝ) ^ (((i2 - i1 : ℤ) : ℝ) / 12) := by
      rw [← noteFreqFormula_shift]
      congr 1
      omega
    have hge : (10594630/10^7 : ℝ) ≤ (2:ℝ) ^ (((i2 - i1 : ℤ) : ℝ) / 12) := by
      have hc : (1:ℝ) ≤ ((i2 - i1 : ℤ) : ℝ) := by
        exact_mod_cast (by omega : (1:ℤ) ≤ i2 - i1)
      have h12 : (1:ℝ) / 12 ≤ ((i2 - i1 : ℤ) : ℝ) / 12 := by linarith
      have hmono2 := (Real.rpow_le_rpow_left_iff
        (by norm_num : (1:ℝ) < 2)).mpr h12
      have hroot : (10594630/10^7 : ℝ) < (2:ℝ) ^ ((1:ℝ) / 12) := by
        have h1root := lt_rpow_div12
          (q := 10594630/10^7) (a := 1) (by norm_num)
        simpa using h1root
      linarith
    have hmid : noteFreqFormula i1 * (1 + 1/50000) ≤
        noteFreqFormula i2 * (1 - 1/50000) := by
      rw [hshift]
      nlinarith [mul_le_mul_of_nonneg_left hge hF1.le]
    linarith
  · intro s s' name octave k hm hm' ho
    have hidx : noteIndex s = some ((octave : ℤ) * 12 + k) := by
      simp [noteIndex, hm, ho]
    have hidx' : noteIndex s' = some (((octave + 1 : ℕ) : ℤ) * 12 + k) := by
      simp [noteIndex, hm', ho]
    obtain ⟨a1, a2⟩ := freqApprox hidx
    obtain ⟨b1, b2⟩ := freqApprox hidx'
    have hF := noteFreqFormula_pos ((octave : ℤ) * 12 + k)
    have hdd : noteFreqFormula (((octave + 1 : ℕ) : ℤ) * 12 + k) =
        2 * noteFreqFormula ((octave : ℤ) * 12 + k) := by
      rw [← noteFreqFormula_double]
      congr 1
      push_cast
      ring
    rw [hdd] at b1 b2
    rw [abs_le]
    constructor <;> linarith

theorem noteToFrequency_monotone_octave_doubling_witness :
    noteIndex "C4" = some 48 ∧ noteIndex "A4" = some 57 ∧
    noteToFrequency "C4" < noteToFrequency "A4" ∧
    matchNote "A3" = some ("A", 3) ∧ matchNote "A4" = some ("A", 3 + 1) ∧
    noteOffsets "A" = some 9 ∧
    |noteToFrequency "A4" - 2 * noteToFrequency "A3"| ≤
      2 * noteToFrequency "A3" * (1/10000) := by
  refine ⟨by decide, by decide, ?_, by decide, by decide, by decide, ?_⟩
  · exact noteToFrequency_monotone_octave_doubling.1 "C4" "A4" 48 57
      (by decide) (by decide) (by decide)
  · exact noteToFrequency_monotone_octave_doubling.2 "A3" "A4" "A" 3 9
      (by decide) (by decide) (by decide)

/-! ## WAV-encoding lemmas -/

/-- Truncation toward zero moves a real by less than one. -/
theorem truncR_close (y : ℝ) : |(truncR y : ℝ) - y| < 1 := by
  unfold truncR
  split_ifs with h
  · rw [abs_lt]
    constructor
    · linarith [Int.lt_floor_add_one y]
    · linarith [Int.floor_le y]
  · push_cast
    rw [abs_lt]
    constructor
    · linarith [Int.floor_le (-y)]
    · linarith [Int.lt_floor_add_one (-y)]

/-- The clamped, scaled, truncated sample always fits in 16 bits. -/
theorem sampleToInt16_bounds (x : ℝ) :
    -32767 ≤ sampleToInt16 x ∧ sampleToInt16 x ≤ 32767 := by
  unfold sampleToInt16 truncR
  have h1 : -1 ≤ max (-1) (min 1 x) := le_max_left _ _
  have h2 : max (-1) (min 1 x) ≤ 1 := by
    apply max_le
    · linarith
    · exact min_le_left _ _
  set y := max (-1) (min 1 x) * 32767 with hy
  have hy1 : (-32767 : ℝ) ≤ y := by nlinarith
  have hy2 : y ≤ 32767 := by nlinarith
  split_ifs with h
  · constructor
    · have h0 : (0:ℤ) ≤ ⌊y⌋ := Int.floor_nonneg.mpr h
      omega
    · have hfy : (⌊y⌋ : ℝ) ≤ 32767 := le_trans (Int.floor_le y) hy2
      exact_mod_cast hfy
  · have h1f : (⌊-y⌋ : ℝ) ≤ 32767 := le_trans (Int.floor_le _) (by linarith)
    have h2f : (0:ℤ) ≤ ⌊-y⌋ := Int.floor_nonneg.mpr (by linarith)
    have h3f : (⌊-y⌋ : ℤ) ≤ 32767 := by exact_mod_cast h1f
    omega

/-- Two's-complement 16-bit little-endian encoding round-trips. -/
theorem int16_roundtrip {v : ℤ} (h1 : -32768 ≤ v) (h2 : v ≤ 32767) :
    decodeInt16 (int16Bytes v) = v := by
  unfold int16Bytes le16
  simp only [decodeInt16]
  split_ifs with h
  · omega
  · omega

/-- Decoding the encoded sample reproduces the clamped-and-scaled signal
to within one least-significant bit. -/
theorem sample_decode_close (x : ℝ) (hx1 : -1 ≤ x) (hx2 : x ≤ 1) :
    |(decodeInt16 (int16Bytes (sampleToInt16 x)) : ℝ) - x * 32767| ≤ 1 := by
  obtain ⟨hb1, hb2⟩ := sampleToInt16_bounds x
  rw [int16_roundtrip (by omega) (by omega)]
  have hclamp : max (-1) (min 1 x) = x := by
    rw [min_eq_right hx2, max_eq_right hx1]
  unfold sampleToInt16
  rw [hclamp]
  exact le_of_lt (truncR_close _)

/-- Total length of a constant-block-size `flatMap` over `range`. -/
theorem flatMap_range_length {α : Type} (f : ℕ → List α) (c : ℕ)
    (hf : ∀ j, (f j).length = c) (n : ℕ) :
    ((List.range n).flatMap f).length = n * c := by
  induction n with
  | zero => simp
  | succ m ih =>
    rw [List.range_succ, List.flatMap_append]
    simp [ih, hf, Nat.succ_mul]

/-- Block `i` of a constant-block-size `flatMap` sits at offset `i * c`. -/
theorem flatMap_range_decomp {α : Type} (f : ℕ → List α) (c : ℕ)
    (hf : ∀ j, (f j).length = c) :
    ∀ n i, i < n →
      ∃ pre post, (List.range n).flatMap f = pre ++ (f i ++ post) ∧
        pre.length = i * c := by
  intro n
  induction n with
  | zero => omega
  | succ m ih =>
    intro i h
    rcases Nat.lt_succ_iff_lt_or_eq.mp h with h' | rfl
    · obtain ⟨pre, post, heq, hlen⟩ := ih i h'
      refine ⟨pre, post ++ f m, ?_, hlen⟩
      rw [List.range_succ, List.flatMap_append, heq]
      simp
    · refine ⟨(List.range i).flatMap f, [], ?_, flatMap_range_length f c hf i⟩
      rw [List.range_succ, List.flatMap_append]
      simp

/-- Reading `t` elements at offset `i * c + d` inside block `i`. -/
theorem flatMap_range_subslice {α : Type} (f : ℕ → List α) (c : ℕ)
    (hf : ∀ j, (f j).length = c) {n i d t : ℕ} (h : i < n)
    (hdt : d + t ≤ c) :
    (((List.range n).flatMap f).drop (i * c + d)).take t =
      ((f i).drop d).take t := by
  obtain ⟨pre, post, heq, hlen⟩ := flatMap_range_decomp f c hf n i h
  rw [heq, show i * c + d = pre.length + d by omega, ← List.drop_drop,
    List.drop_left]
  rw [List.drop_append_eq_append_drop, List.take_append_eq_append_take]
  have hd : ((f i).drop d).length = c - d := by
    rw [List.length_drop, hf]
  rw [show d - (f i).length = 0 by rw [hf]; omega, List.drop_zero,
    show t - ((f i).drop d).length = 0 by rw [hd]; omega, List.take_zero,
    List.append_nil]

/-- Reading a whole block. -/
theorem flatMap_range_slice {α : Type} (f : ℕ → List α) (c : ℕ)
    (hf : ∀ j, (f j).length = c) {n i : ℕ} (h : i < n) :
    (((List.range n).flatMap f).drop (i * c)).take c = f i := by
  have hsub := flatMap_range_subslice f c hf (d := 0) (t := c) h (by omega)
  rw [Nat.add_zero] at hsub
  rw [hsub, List.drop_zero, List.take_of_length_le (le_of_eq (hf i))]

theorem frameBytes_length (b : AudioBuffer) (i : ℕ) :
    (frameBytes b i).length = b.numberOfChannels * 2 := by
  unfold frameBytes
  refine flatMap_range_length _ 2 ?_ _
  intro channel
  rfl

set_option maxHeartbeats 1000000 in
/-- C9: `bufferToWAV` emits the 44-byte RIFF/WAVE header — ASCII chunk
ids, little-endian sizes, a 16-byte `fmt ` sub-chunk declaring PCM
(format 1) with 16 bits per sample, the consistent byte rate, block align
and data size — followed by the interleaved samples, each clamped to
[-1, 1], scaled by 0x7FFF and stored as 16-bit little-endian; decoding
any sample back reproduces the original signal within one LSB of the
16-bit quantisation. -/
theorem bufferToWAV_format_roundtrip (b : AudioBuffer) :
    (bufferToWAV b).length = 44 + b.length * b.numberOfChannels * 2 ∧
    (bufferToWAV b).take 4 = asciiBytes "RIFF" ∧
    ((bufferToWAV b).drop 4).take 4 =
      le32 (36 + b.length * b.numberOfChannels * 2) ∧
    ((bufferToWAV b).drop 8).take 4 = asciiBytes "WAVE" ∧
    ((bufferToWAV b).drop 12).take 4 = asciiBytes "fmt " ∧
    ((bufferToWAV b).drop 16).take 4 = le32 16 ∧
    ((bufferToWAV b).drop 20).take 2 = le16 1 ∧
    ((bufferToWAV b).drop 22).take 2 = le16 b.numberOfChannels ∧
    ((bufferToWAV b).drop 24).take 4 = le32 b.sampleRate ∧
    ((bufferToWAV b).drop 28).take 4 =
      le32 (b.sampleRate * b.numberOfChannels * 2) ∧
    ((bufferToWAV b).drop 32).take 2 = le16 (b.numberOfChannels * 2) ∧
    ((bufferToWAV b).drop 34).take 2 = le16 16 ∧
    ((bufferToWAV b).drop 36).take 4 = asciiBytes "data" ∧
    ((bufferToWAV b).drop 40).take 4 =
      le32 (b.length * b.numberOfChannels * 2) ∧
    (∀ i ch, i < b.length → ch < b.numberOfChannels →
      ((bufferToWAV b).drop
        (44 + (i * b.numberOfChannels + ch) * 2)).take 2 =
        int16Bytes (sampleToInt16 (b.channelData ch i)) ∧
      (-1 ≤ b.channelData ch i → b.channelData ch i ≤ 1 →
        |(decodeInt16 (((bufferToWAV b).drop
            (44 + (i * b.numberOfChannels + ch) * 2)).take 2) : ℝ) -
          b.channelData ch i * 32767| ≤ 1)) := by
  have hdrop44 : (bufferToWAV b).drop 44 = wavData b := rfl
  have hslice : ∀ i ch, i < b.length → ch < b.numberOfChannels →
      ((bufferToWAV b).drop
        (44 + (i * b.numberOfChannels + ch) * 2)).take 2 =
      int16Bytes (sampleToInt16 (b.channelData ch i)) := by
    intro i ch hi hch
    rw [← List.drop_drop, hdrop44]
    rw [show (i * b.numberOfChannels + ch) * 2 =
      i * (b.numberOfChannels * 2) + ch * 2 by ring]
    unfold wavData
    rw [flatMap_range_subslice (frameBytes b) (b.numberOfChannels * 2)
      (frameBytes_length b) hi (by omega)]
    unfold frameBytes
    exact flatMap_range_slice
      (fun channel => int16Bytes (sampleToInt16 (b.channelData channel i)))
      2 (fun _ => rfl) hch
  refine ⟨?_, rfl, rfl, rfl, rfl, rfl, rfl, rfl, rfl, rfl, rfl, rfl, rfl,
    rfl, ?_⟩
  · have hdl : (wavData b).length = b.length * (b.numberOfChannels * 2) := by
      unfold wavData
      exact flatMap_range_length _ _ (frameBytes_length b) _
    have l1 : (asciiBytes "RIFF").length = 4 := rfl
    have l2 : (asciiBytes "WAVE").length = 4 := rfl
    have l3 : (asciiBytes "fmt ").length = 4 := rfl
    have l4 : (asciiBytes "data").length = 4 := rfl
    have l5 : ∀ v, (le32 v).length = 4 := fun v => rfl
    have l6 : ∀ v, (le16 v).length = 2 := fun v => rfl
    unfold bufferToWAV
    simp only [List.length_append, l1, l2, l3, l4, l5, l6, hdl]
    ring
  · intro i ch hi hch
    refine ⟨hslice i ch hi hch, ?_⟩
    intro hx1 hx2
    rw [hslice i ch hi hch]
    exact sample_decode_close _ hx1 hx2

theorem bufferToWAV_format_roundtrip_witness :
    (0 < demoBuffer.length ∧ 0 < demoBuffer.numberOfChannels ∧
      (-1 : ℝ) ≤ demoBuffer.channelData 0 0 ∧
      demoBuffer.channelData 0 0 ≤ 1) ∧
    (bufferToWAV demoBuffer).take 4 = asciiBytes "RIFF" ∧
    ((bufferToWAV demoBuffer).drop 44).take 2 =
      int16Bytes (sampleToInt16 (demoBuffer.channelData 0 0)) ∧
    |(decodeInt16 (((bufferToWAV demoBuffer).drop 44).take 2) : ℝ) -
      demoBuffer.channelData 0 0 * 32767| ≤ 1 := by
  have h := bufferToWAV_format_roundtrip demoBuffer
  have hd := h.2.2.2.2.2.2.2.2.2.2.2.2.2.2 0 0
    (by norm_num [demoBuffer]) (by norm_num [demoBuffer])
  have hoff : 44 + (0 * demoBuffer.numberOfChannels + 0) * 2 = 44 := by
    norm_num
  refine ⟨⟨by norm_num [demoBuffer], by norm_num [demoBuffer],
    by norm_num [demoBuffer], by norm_num [demoBuffer]⟩, h.2.1, ?_, ?_⟩
  · have := hd.1
    rwa [hoff] at this
  · have := hd.2 (by norm_num [demoBuffer]) (by norm_num [demoBuffer])
    rwa [hoff] at this

end MusicPad
